import Mathlib

/-!
Verification of the IAA WhatsApp chatbot message-routing and course-matching
engine, as implemented by the live Meta webhook in
`src/webhook/domain-definitions.js` (the Express `/meta-webhook` POST handler,
`findCourseByPartialName`, `formatCourseInfo`, `isDomainSelection`,
`getDomainResponse`, `getCommonFallbackMessage`) together with the
`excelDateToString` helper of `src/webhook/index.js`.

Modelling conventions:
- JS strings are Lean `String`s; `toLowerCase`, `trim`, `includes`,
  `startsWith` and the few regexes used by the code are re-implemented over
  `List Char` (ASCII semantics, which covers every comparison the code
  performs; the server locale/timezone for `toLocaleDateString` is taken as
  UTC, matching the explicitly-UTC `excelDateToString` variant).
- A JS course object (one row of `courses.json`) is a `Course` record; the
  key-scanning helpers (`keys.find(k => k.includes('Programme'))`, the
  `getFieldValue` chains) are abstracted into named fields holding a
  `FieldVal` (a JS value that is a number, a string, or absent).
- The webhook handler chain is the pure function `route`: it consumes the
  inbound text, the sender's display name, the sender's stored domain
  context and the course catalog, and produces the reply plus the updated
  context, mirroring the handler order of the source file exactly.
-/

namespace IAA

/-! ## JS string primitives -/

/-- JS `\s` (the whitespace characters relevant to this codebase). -/
def jsIsSpace (c : Char) : Bool :=
  c.toNat == 32 || c.toNat == 9 || c.toNat == 10 || c.toNat == 13 ||
  c.toNat == 11 || c.toNat == 12

/-- JS `\d` character class. -/
def isDigitChar (c : Char) : Bool := 48 ≤ c.toNat && c.toNat ≤ 57

/-- JS `\w` character class (`[A-Za-z0-9_]`). -/
def isWordChar (c : Char) : Bool :=
  (48 ≤ c.toNat && c.toNat ≤ 57) || (65 ≤ c.toNat && c.toNat ≤ 90) ||
  (97 ≤ c.toNat && c.toNat ≤ 122) || c.toNat == 95

/-- `String.prototype.toLowerCase` on one character (ASCII range). -/
def jsLowerChar (c : Char) : Char :=
  if 65 ≤ c.toNat ∧ c.toNat ≤ 90 then Char.ofNat (c.toNat + 32) else c

/-- `String.prototype.toLowerCase`. -/
def jsToLower (s : String) : String := ⟨s.data.map jsLowerChar⟩

/-- `String.prototype.trim` on a character list. -/
def jsTrimList (cs : List Char) : List Char :=
  ((cs.dropWhile jsIsSpace).reverse.dropWhile jsIsSpace).reverse

/-- `String.prototype.trim`. -/
def jsTrim (s : String) : String := ⟨jsTrimList s.data⟩

/-- Does `text` start with `pat`?  (`String.prototype.startsWith`.) -/
def listStarts : List Char → List Char → Bool
  | [], _ => true
  | _ :: _, [] => false
  | a :: as, b :: bs => a == b && listStarts as bs

/-- Does `text` contain `pat` as a contiguous substring?
(`String.prototype.includes`.) -/
def listContains (pat : List Char) : List Char → Bool
  | [] => pat.isEmpty
  | c :: rest => listStarts pat (c :: rest) || listContains pat rest

/-- `s.includes(pat)` in JS argument order. -/
def jsIncludes (s pat : String) : Bool := listContains pat.data s.data

/-- `s.startsWith(pat)` in JS argument order. -/
def jsStartsWith (s pat : String) : Bool := listStarts pat.data s.data

/-- Match `pat` literally at the head of `text`, returning the rest. -/
def stripLit : List Char → List Char → Option (List Char)
  | [], text => some text
  | _ :: _, [] => none
  | p :: ps, t :: ts => if p = t then stripLit ps ts else none

/-- Word-boundary test at the current position: `pat` matches here and both
ends sit on a `\b` boundary (regex `\b` holds where exactly one side is a
word character). -/
def wbHere (pat text : List Char) (prev : Option Char) : Bool :=
  match stripLit pat text with
  | none => false
  | some rest =>
    let prevW : Bool := match prev with | none => false | some c => isWordChar c
    let firstW : Bool := match pat with | [] => false | c :: _ => isWordChar c
    let lastW : Bool := match pat.getLast? with | none => false | some c => isWordChar c
    let nextW : Bool := match rest with | [] => false | c :: _ => isWordChar c
    (prevW != firstW) && (lastW != nextW)

/-- Search for a `\b pat \b` regex match anywhere in `text`; `prev` is the
character just before the current position. -/
def wbSearch (pat : List Char) : Option Char → List Char → Bool
  | prev, text =>
    wbHere pat text prev ||
    match text with
    | [] => false
    | c :: rest => wbSearch pat (some c) rest

/-- `new RegExp('\\b' + pat + '\\b', 'i').test(s)` (both sides lowercased,
which is what the `i` flag amounts to on ASCII). -/
def jsWbTest (s pat : String) : Bool :=
  wbSearch (jsToLower pat).data none (jsToLower s).data

/-- `parseInt` on an all-digit string (the only shape the code feeds it). -/
def digitsToNat (cs : List Char) : Nat :=
  cs.foldl (fun acc c => acc * 10 + (c.toNat - 48)) 0

/-- Regex `(\d+)$`: the whole rest of the input is one or more digits. -/
def parseDigitsEnd (cs : List Char) : Option Nat :=
  if cs.isEmpty then none
  else if cs.all isDigitChar then some (digitsToNat cs) else none

/-- Regex `\s*`: drop leading whitespace. -/
def skipSpaces : List Char → List Char
  | [] => []
  | c :: cs => if jsIsSpace c then skipSpaces cs else c :: cs

/-- Split on whitespace runs (`split(/\s+/)`), dropping empty tokens (the
only possible empty token, at a whitespace-led start, is filtered out by the
caller's `word.length > 2` guard anyway). -/
def splitWsAux : List Char → List Char → List String
  | [], acc => if acc.isEmpty then [] else [⟨acc.reverse⟩]
  | c :: cs, acc =>
    if jsIsSpace c then
      if acc.isEmpty then splitWsAux cs [] else ⟨acc.reverse⟩ :: splitWsAux cs []
    else splitWsAux cs (c :: acc)

def splitWs (s : String) : List String := splitWsAux s.data []

/-! ## Course records -/

/-- A JS field value as stored in one `courses.json` row: a number, a string,
or absent (`undefined`). -/
inductive FieldVal where
  | num (n : Nat)
  | str (s : String)
  | missing
deriving DecidableEq, Repr

/-- One course row.  `name` is the value under the
`प्रशिक्षण कार्यक्रम Programme` key (located in JS by scanning for a key
containing `Programme`); the remaining fields correspond to the
`getFieldValue` lookups of `formatCourseInfo` (each standing for the chain of
source keys it probes, `missing` when none is present). -/
structure Course where
  name : String
  level : FieldVal := .missing
  startDateCur : FieldVal := .missing
  endDateCur : FieldVal := .missing
  startDateNext : FieldVal := .missing
  endDateNext : FieldVal := .missing
  durationDays : FieldVal := .missing
  feePerDay : FieldVal := .missing
  feeAfterDiscount : FieldVal := .missing
  hostelCharges : FieldVal := .missing
  coordinator : FieldVal := .missing
  category : FieldVal := .missing
  phone : FieldVal := .missing
  email : FieldVal := .missing
deriving DecidableEq, Repr

/-! ## The short-form map of `findCourseByPartialName`
(`src/webhook/domain-definitions.js` lines 967-1077, in source order; the
object literal has no duplicate property names, so first-match association
lookup coincides with JS property lookup). -/

def shortFormMap : List (String × String) := [
    ("dem", "Demo"),
    ("sms", "Safety Management System(SMS)"),
    ("dop", "Delegation of Power(DOP)"),
    ("rrr", "Runway Rubber Removal"),
    ("gem", "GeM Procurement"),
    ("bi", "Data Analytics using Power Bi"),
    ("pbi", "Data Analytics using Power Bi"),
    ("gst", "Goods and Services Tax"),
    ("apd", "APD Professional Competency Development"),
    ("apm", "Airfield pavement Marking"),
    ("posh", "Prevention of Sexual Harassment"),
    ("rti", "Right to Information"),
    ("agl", "Airfield Ground Lighting"),
    ("pws", "Precision Weather System"),
    ("noc", "Notice of Change"),
    ("hv", "High Voltage"),
    ("ac", "Air Conditioning"),
    ("ecbc", "Energy Conservation Building Code"),
    ("e&m", "Electrical and Mechanical"),
    ("annex-14", "Annex-14"),
    ("annex-9", "Annex-9"),
    ("atm", "Airport Terminal Management"),
    ("procurement", "GeM Procurement"),
    ("safety", "Safety Management System(SMS)"),
    ("power", "Data Analytics using Power Bi"),
    ("analytics", "Data Analytics using Power Bi"),
    ("data", "Data Analytics using Power Bi"),
    ("delegation", "Delegation of Power(DOP)"),
    ("runway", "Runway Rubber Removal"),
    ("rubber", "Runway Rubber Removal"),
    ("removal", "Runway Rubber Removal"),
    ("safety management", "Safety Management System(SMS)"),
    ("safety management system", "Safety Management System(SMS)"),
    ("gem procurement", "GeM Procurement"),
    ("power bi", "Data Analytics using Power Bi"),
    ("data analytics", "Data Analytics using Power Bi"),
    ("advance excel", "Advance Excel & Power BI"),
    ("excel", "Advance Excel & Power BI"),
    ("contract management", "Contract Management"),
    ("commercial contract", "Commercial Contract management"),
    ("wildlife", "Wildlife Hazard Management"),
    ("wildlife management", "Wildlife Hazard Management"),
    ("airport emergency", "Airport Emergency Planning  & Disabled Aircraft Removal"),
    ("aerodrome design", "Aerodrome Design & Operations(Annex-14)"),
    ("aerodrome operations", "Aerodrome Design & Operations(Annex-14)"),
    ("aerodrome licensing", "Aerodrome Licensing"),
    ("airfield pavement", "Airfield pavement Marking(APM)"),
    ("airfield marking", "Airfield pavement Marking(APM)"),
    ("passenger wayfinding", "Passenger Wayfinding signages(PWS)"),
    ("aeronautical ground", "Aeronautical ground Lights(AGL)"),
    ("ground lighting", "Aeronautical ground Lights(AGL)"),
    ("human factors", "Human Factors"),
    ("stress management", "Stress Management"),
    ("retirement planning", "Planning for Retirement"),
    ("planning retirement", "Planning for Retirement"),
    ("labour laws", "Compliance of Labour Laws"),
    ("compliance labour", "Compliance of Labour Laws"),
    ("right to information", "Right To Information Act, 2005"),
    ("rti act", "Right To Information Act, 2005"),
    ("mentorship", "Mentorship and succession planning"),
    ("succession planning", "Mentorship and succession planning"),
    ("leadership", "Leadership,Team Building & Conflict Management"),
    ("team building", "Leadership,Team Building & Conflict Management"),
    ("conflict management", "Leadership,Team Building & Conflict Management"),
    ("accounting", "Accounting & Internal Audit"),
    ("internal audit", "Accounting & Internal Audit"),
    ("budget preparation", "Delegation of Power(DOP) & Budget Preparation"),
    ("goods services tax", "Goods and Services Tax & Statutory Taxation"),
    ("statutory taxation", "Goods and Services Tax & Statutory Taxation"),
    ("design thinking", "Design Thinking for nuturing innovation"),
    ("innovation", "Design Thinking for nuturing innovation"),
    ("data driven", "Data Driven Decision Making"),
    ("decision making", "Data Driven Decision Making"),
    ("presentation skills", "Effective Presentation and Communication skills"),
    ("communication skills", "Effective Presentation and Communication skills"),
    ("corporate communication", "Corporate communication"),
    ("green aviation", "Green Aviation"),
    ("system engineering", "System Engineering and Project Management"),
    ("project management", "System Engineering and Project Management"),
    ("airport terminal", "Airport Terminal Management"),
    ("terminal management", "Airport Terminal Management"),
    ("airport pavement", "Airport Pavement Design,Evaluation & Maintenance"),
    ("pavement design", "Airport Pavement Design,Evaluation & Maintenance"),
    ("pavement evaluation", "Airport Pavement Design,Evaluation & Maintenance"),
    ("pavement maintenance", "Airport Pavement Design,Evaluation & Maintenance"),
    ("aerodrome planning", "Aerodrome Planning (Green Field/Brownfield Airport)"),
    ("green field", "Aerodrome Planning (Green Field/Brownfield Airport)"),
    ("brownfield", "Aerodrome Planning (Green Field/Brownfield Airport)"),
    ("mid career", "Good to Great-Mid Career Transition"),
    ("career transition", "Good to Great-Mid Career Transition"),
    ("cyber security", "Aviation Cyber Security"),
    ("aviation cyber", "Aviation Cyber Security"),
    ("industrial relations", "Industrial Relations and Stakeholder management"),
    ("stakeholder management", "Industrial Relations and Stakeholder management"),
    ("infrastructure passengers", "Infrastructure and facilities for Passengers with reduced mobilities"),
    ("passengers reduced mobilities", "Infrastructure and facilities for Passengers with reduced mobilities"),
    ("airfield signs", "Airfield Signs"),
    ("ans fundamentals", "ANS fundamentals for Ops Executives"),
    ("ops executives", "ANS fundamentals for Ops Executives"),
    ("global reporting", "Global reporting Format"),
    ("reporting format", "Global reporting Format"),
    ("annex 9", "Annex-9(Facilitation)"),
    ("facilitation", "Annex-9(Facilitation)"),
    ("heating ventilation", "Heating ventilation(HV) & Air Conditioning(AC) And Energy conservation building code (ECBC)"),
    ("air conditioning", "Heating ventilation(HV) & Air Conditioning(AC) And Energy conservation building code (ECBC)"),
    ("energy conservation", "Heating ventilation(HV) & Air Conditioning(AC) And Energy conservation building code (ECBC)"),
    ("HV", "Heating ventilation(HV) & Air Conditioning(AC) And Energy conservation building code (ECBC)")]

/-- `shortFormMap[key]` (JS property lookup). -/
def shortFormLookup (key : String) : Option String :=
  (shortFormMap.find? (fun p => p.1 == key)).map Prod.snd

/-! ## `findCourseByPartialName` (domain-definitions.js lines 962-1147)

The loop body checks, per course, its six `PRIORITY` conditions in order and
returns the course as soon as any of them holds; so the whole function is
`find?` of the disjunction over the catalog, with the priority conditions
exposed below as the individual `tier*` predicates. -/

/-- PRIORITY 1: exact match against the (possibly expanded) search term or
the raw lowercased query. -/
def tierExact (lcp st lcn : String) : Bool := lcn == st || lcn == lcp

/-- PRIORITY 2: course name starts with the search term or the raw query. -/
def tierStarts (lcp st lcn : String) : Bool :=
  jsStartsWith lcn st || jsStartsWith lcn lcp

/-- PRIORITY 3 (and the identical PRIORITY 6): for a short-form query, the
raw query appears in the course name at word boundaries. -/
def tierWb (lcp courseName : String) (isShort : Bool) : Bool :=
  isShort && jsWbTest courseName lcp

/-- PRIORITY 4: course name contains the expanded search term. -/
def tierIncl (st lcn : String) : Bool := jsIncludes lcn st

/-- PRIORITY 5: for a non-short-form query, course name contains the raw
query. -/
def tierInclOrig (lcp lcn : String) (isShort : Bool) : Bool :=
  !isShort && jsIncludes lcn lcp

/-- `lowerCasePartial`: the lowercased, trimmed query, computed once before
the loop. -/
def mkLcp (q : String) : String := jsTrim (jsToLower q)

/-- Is the query a short form (`shortFormMap[lowerCasePartial]` defined)? -/
def isShortQ (q : String) : Bool := (shortFormLookup (mkLcp q)).isSome

/-- `searchTerm`: the lowercased short-form expansion when the query is a
short form, the raw query otherwise. -/
def mkTerm (q : String) : String :=
  match shortFormLookup (mkLcp q) with
  | some exp => jsToLower exp
  | none => mkLcp q

/-- The loop body of `findCourseByPartialName` for one course: skip courses
with an invalid name, otherwise test PRIORITY 1-6 (returning on the first
hit returns the same course as taking the disjunction). -/
def queryMatches (q : String) (course : Course) : Bool :=
  if course.name == "" || course.name == "undefined" then false
  else
    tierExact (mkLcp q) (mkTerm q) (jsToLower course.name) ||
    tierStarts (mkLcp q) (mkTerm q) (jsToLower course.name) ||
    tierWb (mkLcp q) course.name (isShortQ q) ||
    tierIncl (mkTerm q) (jsToLower course.name) ||
    tierInclOrig (mkLcp q) (jsToLower course.name) (isShortQ q) ||
    tierWb (mkLcp q) course.name (isShortQ q)

/-- `findCourseByPartialName(partialName, courses)`. -/
def findCourseByPartialName (partialName : String) (courses : List Course) :
    Option Course :=
  courses.find? (queryMatches partialName)

/-- PRIORITY 1-2 combined on a valid-named course (used to state tier-priority
claims: a course "matches at the exact/prefix tier" iff this holds). -/
def matchesTier12 (q : String) (course : Course) : Bool :=
  if course.name == "" || course.name == "undefined" then false
  else
    tierExact (mkLcp q) (mkTerm q) (jsToLower course.name) ||
    tierStarts (mkLcp q) (mkTerm q) (jsToLower course.name)

/-! ## Calendar arithmetic for Excel serial dates

`formatCourseInfo` turns a numeric serial `s > 25569` into
`new Date((s - 25569) * 86400 * 1000).toLocaleDateString('en-GB')`, i.e. the
proleptic Gregorian date `s - 25569` days after 1970-01-01, printed
`dd/mm/yyyy`; `index.js`'s `excelDateToString` instead computes
`Date.UTC(1899, 11, 30)` plus `s` days and prints `dd/mm/yy`.  Both are
embedded below through an explicit civil-from-days computation. -/

def isLeap (y : Nat) : Bool := (y % 4 == 0 && y % 100 != 0) || y % 400 == 0

def daysInYear (y : Nat) : Nat := if isLeap y then 366 else 365

/-- Walk years forward from `y`, consuming `d` days; `fuel` bounds the
iteration count (callers pass at least `d + 1`, which always suffices). -/
def yearWalk : Nat → Nat → Nat → Nat × Nat
  | 0, y, d => (y, d)
  | fuel + 1, y, d =>
    if d < daysInYear y then (y, d) else yearWalk fuel (y + 1) (d - daysInYear y)

def monthLengths (leap : Bool) : List Nat :=
  [31, if leap then 29 else 28, 31, 30, 31, 30, 31, 31, 30, 31, 30, 31]

/-- Walk months, consuming `r` days; returns (month, zero-based day). -/
def monthWalk : List Nat → Nat → Nat → Nat × Nat
  | [], m, r => (m, r)
  | len :: rest, m, r =>
    if r < len then (m, r) else monthWalk rest (m + 1) (r - len)

/-- Civil date (year, month, day) of the day `d` days after 1970-01-01. -/
def civilFromDays (d : Nat) : Nat × Nat × Nat :=
  let p := yearWalk (d + 1) 1970 d
  let q := monthWalk (monthLengths (isLeap p.1)) 1 p.2
  (p.1, q.1, q.2 + 1)

/-- Civil date of Excel serial `s`: day 0 is 1899-12-30 (serial 2 is
1900-01-01). -/
def excelCivil (s : Nat) : Nat × Nat × Nat :=
  if s = 0 then (1899, 12, 30)
  else if s = 1 then (1899, 12, 31)
  else
    let d := s - 2
    let p := yearWalk (d + 1) 1900 d
    let q := monthWalk (monthLengths (isLeap p.1)) 1 p.2
    (p.1, q.1, q.2 + 1)

def pad2 (n : Nat) : String := if n < 10 then "0" ++ Nat.repr n else Nat.repr n

/-- `toLocaleDateString('en-GB')`: `dd/mm/yyyy`. -/
def renderEnGB (t : Nat × Nat × Nat) : String :=
  pad2 t.2.2 ++ "/" ++ pad2 t.2.1 ++ "/" ++ Nat.repr t.1

/-- The `dd/mm/yy` rendering of `excelDateToString` (day and month padded,
`String(year).slice(-2)` for the year). -/
def renderDDMMYY (t : Nat × Nat × Nat) : String :=
  pad2 t.2.2 ++ "/" ++ pad2 t.2.1 ++ "/" ++ pad2 (t.1 % 100)

/-- `excelDateToString(serial)` from `src/webhook/index.js` lines 1271-1287
(on the numeric serials the catalog stores; `0` is falsy in JS). -/
def excelDateToString (serial : Nat) : String :=
  if serial = 0 then "N/A" else renderDDMMYY (excelCivil serial)

/-! ## `formatCourseInfo` (domain-definitions.js lines 1152-1225) -/

/-- JS string interpolation of a field value. -/
def fieldValStr : FieldVal → String
  | .num n => Nat.repr n
  | .str s => s
  | .missing => "undefined"

/-- `getFieldValue(...) || 'N/A'`: an absent key yields `'N/A'`, and the JS
falsy values `0` and `''` are also replaced by `'N/A'`. -/
def fieldOrNA : FieldVal → FieldVal
  | .missing => .str "N/A"
  | .num 0 => .str "N/A"
  | .str "" => .str "N/A"
  | v => v

/-- The per-field date conversion of `formatCourseInfo` (lines 1184-1202):
only a numeric value strictly greater than 25569 is converted to a calendar
date; everything else is interpolated as-is. -/
def formatDateField (v : FieldVal) : String :=
  match v with
  | .num n => if 25569 < n then renderEnGB (civilFromDays (n - 25569)) else Nat.repr n
  | .str s => s
  | .missing => "undefined"

/-- `formatCourseInfo(course)` (the `courseName` line reuses the `|| 'N/A'`
fallback on the name). -/
def formatCourseInfo (course : Course) : String :=
  let courseName := if course.name = "" then "N/A" else course.name
  "📘 *Course Details:*\n\n🎯 *Name:* " ++ courseName ++
  "\n🧑‍🎓 *Level:* " ++ fieldValStr (fieldOrNA course.level) ++
  "\n📅 *Date of Current Month:* " ++ formatDateField (fieldOrNA course.startDateCur) ++
  " to " ++ formatDateField (fieldOrNA course.endDateCur) ++
  "\n📅 *Date of Next Month:* " ++ formatDateField (fieldOrNA course.startDateNext) ++
  " to " ++ formatDateField (fieldOrNA course.endDateNext) ++
  "\n⏱️ *Duration:* " ++ fieldValStr (fieldOrNA course.durationDays) ++
  " days\n💰 *Fee per day:* ₹" ++ fieldValStr (fieldOrNA course.feePerDay) ++
  "\n💸 *Fee after group discount:* ₹" ++ fieldValStr (fieldOrNA course.feeAfterDiscount) ++
  "\n🏨 *Hostel Charges:* " ++ fieldValStr (fieldOrNA course.hostelCharges) ++
  "\n👨‍🏫 *Coordinator(s):* " ++ fieldValStr (fieldOrNA course.coordinator) ++
  "\n🏷️ *Category:* " ++ fieldValStr (fieldOrNA course.category) ++
  "\n📞 *Contact:* " ++ fieldValStr (fieldOrNA course.phone) ++
  "\n📧 *Email:* " ++ fieldValStr (fieldOrNA course.email)

/-! ## Domain directory (domain-definitions.js lines 4-75) -/

structure Domain where
  name : String
  courses : List String
deriving DecidableEq, Repr

def domainDefinitions : Nat → Option Domain
  | 1 => some ⟨"Aerodrome Design, Operations, Planning & Engineering",
      ["Global reporting Format",
       "Basic principles of Aerodrome Safeguarding(NOC)",
       "Airport Emergency Planning  & Disabled Aircraft Removal",
       "Infrastructure and facilities for Passengers with reduced mobilities",
       "Aerdrome Design & Operations(Annex-14)",
       "Aerodrome Licensing",
       "Airfield pavement Marking(APM)",
       "Wildlife Hazard Management",
       "Airfield Signs",
       "Annex-9(Facilitation)",
       "Airport Terminal Management",
       "ANS fundamentals for Ops Executives",
       "Passenger Wayfinding signages(PWS)",
       "Runway Rubber Removal(RRR)",
       "Aeronautical ground Lights(AGL)"]⟩
  | 2 => some ⟨"Safety, Security & Compliance",
      ["Safety Management System(SMS)",
       "Aviation Cyber Security",
       "Human Factors"]⟩
  | 3 => some ⟨"Data Analysis, Decision Making, Innovation & Technology",
      ["Data Analytics using Power Bi",
       "Advance Excel & Power BI",
       "Design Thinking for nuturing innovation",
       "Data Driven Decision Making",
       "Effective Presentation and Communication skills",
       "Corporate communication"]⟩
  | 4 => some ⟨"Leadership, Management & Professional Development",
      ["Planning for Retirement",
       "Stress Management",
       "Industrial Relations and Stakeholder management",
       "Compliance of Labour Laws",
       "Right To Information Act, 2005",
       "Mentorship and succession planning",
       "Good to Great-Mid Career Transition",
       "Leadership,Team Building & Conflict Management",
       "APD Professional Competency Development",
       "Green Aviation"]⟩
  | 5 => some ⟨"Stakeholder and Contract Management",
      ["GeM Procurement",
       "Commercial Contract management",
       "Contract Management"]⟩
  | 6 => some ⟨"Financial Management & Auditing",
      ["Accounting & Internal Audit",
       "Delegation of Power(DOP) & Budget Preparation",
       "Goods and Services Tax & Statutory Taxation"]⟩
  | _ => none

/-- `getDomainResponse(domain)` (lines 78-84; the `courseNumber` parameter of
the source is unused). -/
def getDomainResponse (d : Domain) : String :=
  let courseList := String.intercalate "\n\n"
    (d.courses.enum.map (fun p => Nat.repr (p.1 + 1) ++ ". " ++ p.2))
  "📚 *" ++ d.name ++ "*\n\n" ++ courseList ++
  "\n\n💡 *How to use:*\n• Numbers (1-6) work for domain selection only" ++
  "\n• For course information, type course name (full recommended or partial)" ++
  "\n• Examples: \"Global reporting format\", \"Gem Procurement\", \"Safety Management System\"" ++
  "\n• Ask about specific details like fees, dates, or coordinators" ++
  "\n• Type \"show all courses\" to see all domains" ++
  "\n\nTotal courses in this domain: " ++ Nat.repr d.courses.length

/-! ## `isDomainSelection` (domain-definitions.js lines 87-100) -/

/-- `userText.match(/^(course\s*)?(\d+)$/i)`, returning the digit group.  The
regex alternative without the `course` prefix can only succeed on all-digit
input, so committing to a found prefix is equivalent to backtracking. -/
def parseCourseNum (cs : List Char) : Option Nat :=
  match stripLit "course".data cs with
  | some rest => parseDigitsEnd (skipSpaces rest)
  | none => parseDigitsEnd cs

/-- `userText.toLowerCase().match(/^domain\s*(\d+)$/i)`, returning the digit
group. -/
def parseDomainNum (cs : List Char) : Option Nat :=
  match stripLit "domain".data cs with
  | some rest => parseDigitsEnd (skipSpaces rest)
  | none => none

structure DomainSel where
  isDomain : Bool
  domainNumber : Option Nat
deriving DecidableEq, Repr

/-- `isDomainSelection(userText)` (the `i` flag makes matching on the
lowercased text equivalent). -/
def isDomainSelection (userText : String) : DomainSel :=
  let lower := jsToLower userText
  let numberMatch := parseCourseNum lower.data
  let domainMatch := parseDomainNum lower.data
  match numberMatch, domainMatch with
  | none, none => ⟨false, none⟩
  | _, _ =>
    let courseNumber := match numberMatch with
      | some n => n
      | none => domainMatch.getD 0
    ⟨(decide (1 ≤ courseNumber) && decide (courseNumber ≤ 6) &&
        userText.length == 1) || domainMatch.isSome,
     some courseNumber⟩

/-! ## The `/meta-webhook` handler chain (domain-definitions.js lines 540-956)

The handlers run in source order: test echo, greeting, form request,
show-all-courses, domain selection, simple number, goodbye/thanks, free-text
course search, final fallback.  Each predicate below is the corresponding
`if` condition, evaluated on the lowercased message where the source does
so. -/

def formKeywords : List String :=
  ["form please", "give form", "send form", "form link", "form url",
   "registration form", "application form", "enrollment form"]

def goodbyeKeywords : List String :=
  ["thank you", "thanks", "thankyou", "thx", "ty",
   "goodbye", "bye", "good bye", "see you", "see ya",
   "tata", "tata bye", "bye bye", "take care",
   "have a good day", "have a nice day", "good day",
   "appreciate", "grateful", "much appreciated"]

def comparisonKeywords : List String :=
  ["vs", "versus", "between", "compare", "comparison"]

def testHit (lower : String) : Bool := lower == "test"

def greetingHit (lower : String) : Bool :=
  lower == "hi" || lower == "hello" || lower == "hey" ||
  lower == "hii" || lower == "helo"

/-- Form-request check: keyword containment plus the `\bform\b` word-boundary
regex on the (case-insensitively matched) message. -/
def formHit (lower : String) : Bool :=
  formKeywords.any (fun k => jsIncludes lower k) || wbSearch "form".data none lower.data

def showAllHit (lower : String) : Bool :=
  jsIncludes lower "show all courses" || jsIncludes lower "list all courses" ||
  jsIncludes lower "all courses" || jsIncludes lower "courses"

def goodbyeHit (lower : String) : Bool :=
  goodbyeKeywords.any (fun k => jsIncludes lower k)

def comparisonHit (lower : String) : Bool :=
  comparisonKeywords.any (fun k => jsIncludes lower k)

/-- The simple-number handler guard: `/^\d+$/.test(incomingMsg.trim())`. -/
def numericHit (msg : String) : Bool :=
  !(jsTrim msg).data.isEmpty && (jsTrim msg).data.all isDigitChar

/-- The reply produced by one webhook delivery, by handler. -/
inductive Reply where
  | testEcho (msg sender userName : String)
  | greeting (userName : String)
  | formRequest (userName : String)
  | showAll
  | domainList (n : Nat)
  | invalidDomain
  | invalidNumber
  | farewell (userName : String)
  | courseDetail (course : Course)
  | comparison (courses : List Course)
  | fallback (userName : String)
deriving DecidableEq, Repr

/-- `getCommonFallbackMessage(userName = 'Champ')` (lines 202-204). -/
def getCommonFallbackMessage (userName : String := "Champ") : String :=
  "🤔 *We\x27re sorry, " ++ userName ++
  "!*\n\nWe understand your query but need more specific information to help you better. Our team at the Indian Aviation Academy is here to assist you with all your training needs.\n\n📝 *Please fill out our detailed form so someone from our academy can resolve your query at the earliest:*\n\n🔗 https://iaa-admin-dashboard-1-wion.vercel.app/\n\n💡 *You can also try these quick options:*\n• \"show all courses\" - to see all available courses\n• \"domain 1\" - to see aerodrome courses\n• \"Safety Management System\" - for specific course info\n• \"Gem Procurement\" - for specific course details\n\n🌟 *Thank you for your patience! We\x27re committed to providing you with the best aviation training information.*\n\n*Best regards,*\n*IAA Support Team* 🛩️"

/-- The inlined critical-error reply of the webhook's top-level `catch`
(lines 938-939). -/
def criticalErrorResponse : String :=
  "🚨 *We\x27re sorry, we encountered a technical issue while processing your request.*\n\nOur team at the Indian Aviation Academy is here to help you with all your training needs.\n\n📝 *Please fill out our detailed form so someone from our academy can resolve your query at the earliest:*\n\n🔗 https://iaa-admin-dashboard-1-wion.vercel.app/\n\n💡 *You can also try these quick options:*\n• \"show all courses\" - to see all available courses\n• \"domain 1\" - to see aerodrome courses\n• \"Safety Management System\" - for specific course info\n• \"Gem Procurement\" - for specific course details\n\n🌟 *Thank you for your patience! We\x27re committed to providing you with the best aviation training information.*\n\n*Best regards,*\n*IAA Support Team* 🛩️"

/-- The show-all-courses summary (lines 645-664). -/
def showAllResponse : String :=
  "🏗️ *IAA Course Categories - Choose a Domain:*\n\n1️⃣ *Aerodrome Design, Operations, Planning & Engineering*\n   (19 courses) - Type \"domain 1\" or \"aerodrome\"\n\n2️⃣ *Safety, Security & Compliance*\n   (5 courses) - Type \"domain 2\" or \"safety\"\n\n3️⃣ *Data Analysis, Decision Making, Innovation & Technology*\n   (5 courses) - Type \"domain 3\" or \"data\"\n\n4️⃣ *Leadership, Management & Professional Development*\n   (9 courses) - Type \"domain 4\" or \"leadership\"\n\n5️⃣ *Stakeholder and Contract Management*\n   (3 courses) - Type \"domain 5\" or \"stakeholder\"\n\n6️⃣ *Financial Management & Auditing*\n   (4 courses) - Type \"domain 6\" or \"finance\"\n\n\n💡 *How to use:*\n• Type \"domain 1\" to see aerodrome courses\n• Type \"domain 2\" to see safety courses\n• Type a course number (e.g., \"6\" or \"course 6\")\n• Type the full course name or part of it\n• Ask about specific details like fees, dates, or coordinators\n\nTotal domains: 6 | Total courses: 45"

/-- The out-of-range reply of the domain-selection handler (line 719). -/
def invalidDomainResponse : String :=
  "❌ *Invalid domain number!*\n\nPlease choose a domain between 1-6:\n\n• Type \"domain 1\" for Aerodrome courses\n• Type \"domain 2\" for Safety courses\n• Type \"domain 3\" for Data & Technology courses\n• Type \"domain 4\" for Leadership courses\n• Type \"domain 5\" for Stakeholder Management courses\n• Type \"domain 6\" for Financial Management courses\n\nOr type \"show all courses\" to see all domains."

/-- The out-of-range reply of the simple-number handler (line 760). -/
def invalidNumberResponse : String :=
  "❌ *Invalid number!*\n\nPlease choose a number between 1-6 for domain selection:\n\n• Type \"1\" for Aerodrome courses\n• Type \"2\" for Safety courses\n• Type \"3\" for Data & Technology courses\n• Type \"4\" for Leadership courses\n• Type \"5\" for Stakeholder Management courses\n• Type \"6\" for Financial Management courses\n\nOr type \"show all courses\" to see all domains."

/-- The farewell template of the goodbye/thanks handler (line 787). -/
def farewellResponse (userName : String) : String :=
  "🙏 *Thank you " ++ userName ++
  " for contacting Indian Aviation Academy!*\n\nWe\x27re glad to assist you and hope you got all your queries resolved. If you have any more questions in the future, feel free to reach out to us.\n\n🌟 *Wishing you success in your aviation career!*\n\n*Best regards,*\n*IAA Support Team* 🛩️"

/-- The greeting template (line 579). -/
def greetingResponse (userName : String) : String :=
  "👋 *Hello " ++ userName ++
  "! Welcome to IAA (Indian Aviation Academy)!*\n\nI\x27m here to help you with information about our training courses. Here\x27s what I can do:\n\n• Show all available courses\n• Provide course details and information\n• Answer questions about fees, dates, coordinators\n• Help with registration forms\n\n💡 *Try saying:*\n• \"show all courses\" - to see all course categories\n• \"domain 1\" - to see aerodrome courses\n• \"Safety Management System\" - for specific course info\n• \"Gem Procurement\" - for specific course details\n\nHow can I assist you today?"

/-- The test-echo template (line 563). -/
def testResponse (msg sender userName : String) : String :=
  "🧪 *Test successful!*\n\nYour WhatsApp webhook is working correctly.\n\nMessage received: \"" ++
  msg ++ "\"\nFrom: " ++ sender ++ " (" ++ userName ++ ")\n\nNow try: \"show all courses\""

/-- The course-comparison reply (lines 860-874). -/
def comparisonResponse (courses : List Course) : String :=
  "📊 *Course Comparison:*\n\n" ++
  String.join (courses.enum.map (fun p =>
    "📘 *Course " ++ Nat.repr (p.1 + 1) ++ ": " ++ p.2.name ++
    "*\n💰 Fee: ₹" ++ fieldValStr p.2.feePerDay ++
    "/day\n⏱️ Duration: " ++ fieldValStr p.2.durationDays ++
    " days\n👨‍🏫 Coordinator: " ++ fieldValStr p.2.coordinator ++ "\n\n")) ++
  "💡 *For detailed information about any course, just type the course name!*"

/-- The outbound text of a reply. -/
def replyText : Reply → String
  | .testEcho msg sender userName => testResponse msg sender userName
  | .greeting userName => greetingResponse userName
  | .formRequest userName => getCommonFallbackMessage userName
  | .showAll => showAllResponse
  | .domainList n => (domainDefinitions n).elim "" getDomainResponse
  | .invalidDomain => invalidDomainResponse
  | .invalidNumber => invalidNumberResponse
  | .farewell userName => farewellResponse userName
  | .courseDetail course => formatCourseInfo course
  | .comparison courses => comparisonResponse courses
  | .fallback userName => getCommonFallbackMessage userName

/-- The comparison-query course extraction (lines 845-855): scan the
whitespace-split words, resolve each word longer than 2 characters that is
not itself a comparison keyword, and collect distinct hits by course name. -/
def comparisonSearch (msg : String) (courses : List Course) : List Course :=
  (splitWs (jsToLower msg)).foldl
    (fun acc word =>
      if 2 < word.length ∧ ¬ (comparisonKeywords.contains word) then
        match findCourseByPartialName word courses with
        | some c => if acc.any (fun c2 => c2.name == c.name) then acc else acc ++ [c]
        | none => acc
      else acc)
    []

/-- The domain-selection handler body (lines 694-729). -/
def domainStep (msg : String) (ctx : Option Nat) : Reply × Option Nat :=
  let n := (isDomainSelection msg).domainNumber.getD 0
  match domainDefinitions n with
  | some _ => (.domainList n, some n)
  | none => (.invalidDomain, ctx)

/-- The simple-number handler body (lines 731-770).  For `n` between 1 and 6
`domainDefinitions[n]` always exists, so the source's inner existence check
cannot fall through. -/
def numericStep (msg : String) (ctx : Option Nat) : Reply × Option Nat :=
  let n := digitsToNat (jsTrim msg).data
  if 1 ≤ n ∧ n ≤ 6 then (.domainList n, some n) else (.invalidNumber, ctx)

/-- The free-text course-search handler body (lines 800-918). -/
def courseStep (msg userName : String) (ctx : Option Nat) (catalog : List Course) :
    Reply × Option Nat :=
  match findCourseByPartialName msg catalog with
  | some c => (.courseDetail c, ctx)
  | none =>
    if comparisonHit (jsToLower msg) then
      let found := comparisonSearch msg catalog
      if 2 ≤ found.length then (.comparison found, ctx) else (.fallback userName, ctx)
    else (.fallback userName, ctx)

/-- One webhook delivery: the message text, the sender id and display name,
the sender's stored domain context, and the course catalog, to the reply and
the sender's updated context, following the source's handler order. -/
def route (msg sender userName : String) (ctx : Option Nat) (catalog : List Course) :
    Reply × Option Nat :=
  if testHit (jsToLower msg) then (.testEcho msg sender userName, ctx)
  else if greetingHit (jsToLower msg) then (.greeting userName, ctx)
  else if formHit (jsToLower msg) then (.formRequest userName, ctx)
  else if showAllHit (jsToLower msg) then (.showAll, none)
  else if (isDomainSelection msg).isDomain then domainStep msg ctx
  else if numericHit msg then numericStep msg ctx
  else if goodbyeHit (jsToLower msg) then (.farewell userName, ctx)
  else if 2 ≤ (jsTrim msg).length then courseStep msg userName ctx catalog
  else (.fallback userName, ctx)

/-- The handlers evaluated before the goodbye/thanks classifier all miss. -/
def preGoodbyeMiss (msg : String) : Bool :=
  !testHit (jsToLower msg) && !greetingHit (jsToLower msg) &&
  !formHit (jsToLower msg) && !showAllHit (jsToLower msg) &&
  !(isDomainSelection msg).isDomain && !numericHit msg

/-! ## Concrete course records used in the theorems below -/

def gemCourse : Course := { name := "GeM Procurement" }

def commercialContractCourse : Course := { name := "Commercial Contract management" }

def contractManagementCourse : Course := { name := "Contract Management" }

def smsCourse : Course := { name := "Safety Management System(SMS)" }

/-- Modelled from the spec: the course-catalog data file (`courses.json`) is
not among the sources, so this catalog fragment takes the three domain-5
course names of the in-source Domain Directory (`domainDefinitions[5]`), in
their declared order, following the spec's statement that every supported
course belongs to the directory. -/
def contractCatalog : List Course :=
  [gemCourse, commercialContractCourse, contractManagementCourse]

/-- Modelled from the spec: a one-course catalog fragment holding the Safety
Management System course named by the spec and by `domainDefinitions[2]`. -/
def smsCatalog : List Course := [smsCourse]

/-- Total days in the `k` consecutive years starting at year `y` (used to
relate the two serial-date epochs). -/
def sumYears (y : Nat) : Nat → Nat
  | 0 => 0
  | k + 1 => daysInYear y + sumYears (y + 1) k

/-! ## Helper lemmas -/

lemma find_first {α} (p : α → Bool) (pre post : List α) (c : α)
    (hpre : ∀ x ∈ pre, p x = false) (hc : p c = true) :
    List.find? p (pre ++ c :: post) = some c := by
  induction pre with
  | nil => simp [List.find?, hc]
  | cons a as ih =>
    simp only [List.cons_append, List.find?]
    rw [hpre a (by simp)]
    exact ih (fun x hx => hpre x (by simp [hx]))

/-- A course with a usable, trim-stable name matches the query consisting of
its own name, at PRIORITY 1. -/
lemma self_match (c : Course) (h1 : c.name ≠ "") (h2 : c.name ≠ "undefined")
    (h3 : jsTrim (jsToLower c.name) = jsToLower c.name) :
    queryMatches c.name c = true := by
  unfold queryMatches tierExact
  rw [if_neg (by simp [h1, h2])]
  unfold mkLcp
  rw [h3]
  simp

lemma route_goodbye (msg sender userName : String) (ctx : Option Nat)
    (catalog : List Course)
    (hpre : preGoodbyeMiss msg = true) (hgb : goodbyeHit (jsToLower msg) = true) :
    route msg sender userName ctx catalog = (.farewell userName, ctx) := by
  unfold preGoodbyeMiss at hpre
  simp only [Bool.and_eq_true, Bool.not_eq_true'] at hpre
  obtain ⟨⟨⟨⟨⟨h1, h2⟩, h3⟩, h4⟩, h5⟩, h6⟩ := hpre
  unfold route
  simp [h1, h2, h3, h4, h5, h6, hgb]

lemma route_fallback (msg sender userName : String) (ctx : Option Nat)
    (catalog : List Course)
    (hpre : preGoodbyeMiss msg = true) (hgb : goodbyeHit (jsToLower msg) = false)
    (hlen : 2 ≤ (jsTrim msg).length)
    (hfind : findCourseByPartialName msg catalog = none)
    (hcmp : comparisonHit (jsToLower msg) = false) :
    route msg sender userName ctx catalog = (.fallback userName, ctx) := by
  unfold preGoodbyeMiss at hpre
  simp only [Bool.and_eq_true, Bool.not_eq_true'] at hpre
  obtain ⟨⟨⟨⟨⟨h1, h2⟩, h3⟩, h4⟩, h5⟩, h6⟩ := hpre
  unfold route courseStep
  simp [h1, h2, h3, h4, h5, h6, hgb, hlen, hfind, hcmp]

/-- 'ty' is one of the goodbye keywords, so any message whose lowercase form
contains 'ty' trips the goodbye classifier. -/
lemma goodbyeHit_of_ty (lower : String) (h : jsIncludes lower "ty" = true) :
    goodbyeHit lower = true := by
  unfold goodbyeHit
  exact List.any_eq_true.mpr ⟨"ty", by decide, h⟩

/-- The first character of `getCommonFallbackMessage` is the thinking-face
emoji, for every user name. -/
lemma fallback_head (u : String) :
    (getCommonFallbackMessage u).data.head? = some '🤔' := rfl

lemma critical_head : criticalErrorResponse.data.head? = some '🚨' := rfl

/-- The inlined critical-error template is not the common fallback message,
whatever the user's display name. -/
lemma critical_ne_fallback (u : String) :
    criticalErrorResponse ≠ getCommonFallbackMessage u := by
  intro h
  have h2 := critical_head
  rw [h, fallback_head u] at h2
  simp at h2

/-- A message whose trimmed length is below the course-search guard can never
produce a course-detail reply: every branch other than the guarded course
search returns a different reply constructor. -/
lemma route_no_course_short (msg sender userName : String) (ctx : Option Nat)
    (catalog : List Course) (hlen : (jsTrim msg).length < 2) (c : Course) :
    (route msg sender userName ctx catalog).1 ≠ .courseDetail c := by
  unfold route
  split_ifs with h1 h2 h3 h4 h5 h6 h7 h8
  · simp
  · simp
  · simp
  · simp
  · unfold domainStep
    dsimp only
    split <;> simp
  · unfold numericStep
    dsimp only
    split <;> simp
  · simp
  · omega
  · simp

/-- The reply never depends on the stored domain context: the context map of
this webhook is written but never read. -/
lemma route_ctx_blind (msg sender userName : String) (ctx1 ctx2 : Option Nat)
    (catalog : List Course) :
    (route msg sender userName ctx1 catalog).1 =
      (route msg sender userName ctx2 catalog).1 := by
  unfold route
  split_ifs
  · rfl
  · rfl
  · rfl
  · rfl
  · unfold domainStep
    dsimp only
    split <;> rfl
  · unfold numericStep
    dsimp only
    split <;> rfl
  · rfl
  · unfold courseStep
    split
    · rfl
    · split
      · dsimp only
        split <;> rfl
      · rfl
  · rfl

/-! ### Digit-string lemmas (for the domain-selection claim) -/

lemma jsLowerChar_digit (c : Char) (h : isDigitChar c = true) : jsLowerChar c = c := by
  unfold isDigitChar at h
  simp only [Bool.and_eq_true, decide_eq_true_eq] at h
  unfold jsLowerChar
  rw [if_neg (by omega)]

lemma map_digits_id (l : List Char) (h : ∀ c ∈ l, isDigitChar c = true) :
    l.map jsLowerChar = l := by
  induction l with
  | nil => rfl
  | cons c cs ih =>
    simp only [List.map_cons]
    rw [jsLowerChar_digit c (h c (by simp)), ih (fun x hx => h x (by simp [hx]))]

lemma lower_digits (s : String) (h : ∀ c ∈ s.data, isDigitChar c = true) :
    jsToLower s = s := by
  unfold jsToLower
  apply congrArg String.mk
  exact map_digits_id s.data h

lemma lower_append_digits (t s : String) (ht : jsToLower t = t)
    (h : ∀ c ∈ s.data, isDigitChar c = true) :
    jsToLower (t ++ s) = t ++ s := by
  unfold jsToLower
  apply congrArg String.mk
  show List.map jsLowerChar (t.data ++ s.data) = t.data ++ s.data
  rw [List.map_append, map_digits_id s.data h]
  have h2 : List.map jsLowerChar t.data = t.data := congrArg String.data ht
  rw [h2]

lemma digits_ne_lit (s : String) (hD : ∀ c ∈ s.data, isDigitChar c = true)
    (t : String) (c : Char) (hc : c ∈ t.data) (hcgt : 57 < c.toNat) :
    (s == t) = false := by
  rw [beq_eq_false_iff_ne]
  rintro rfl
  have h := hD c hc
  unfold isDigitChar at h
  simp only [Bool.and_eq_true, decide_eq_true_eq] at h
  omega

lemma append_digits_ne_lit (t0 s : String) (hD : ∀ c ∈ s.data, isDigitChar c = true)
    (t : String) (c : Char) (hc : c ∈ t.data) (hnc : c ∉ t0.data)
    (hcgt : 57 < c.toNat) : (t0 ++ s == t) = false := by
  rw [beq_eq_false_iff_ne]
  intro he
  rw [← he] at hc
  rw [show (t0 ++ s).data = t0.data ++ s.data from rfl, List.mem_append] at hc
  rcases hc with h | h
  · exact hnc h
  · have h2 := hD c h
    unfold isDigitChar at h2
    simp only [Bool.and_eq_true, decide_eq_true_eq] at h2
    omega

/-! ### Substring and word-boundary membership -/

lemma listStarts_mem (pat : List Char) : ∀ text, listStarts pat text = true →
    ∀ c ∈ pat, c ∈ text := by
  induction pat with
  | nil => simp
  | cons p ps ih =>
    intro text h c hc
    cases text with
    | nil => simp [listStarts] at h
    | cons t ts =>
      simp only [listStarts, Bool.and_eq_true, beq_iff_eq] at h
      obtain ⟨rfl, h2⟩ := h
      rcases List.mem_cons.mp hc with rfl | hc2
      · exact List.mem_cons_self _ _
      · exact List.mem_cons_of_mem _ (ih ts h2 c hc2)

lemma listContains_mem (pat : List Char) : ∀ text, listContains pat text = true →
    ∀ c ∈ pat, c ∈ text := by
  intro text
  induction text with
  | nil =>
    intro h c hc
    cases pat with
    | nil => simp at hc
    | cons p ps => simp [listContains, listStarts, List.isEmpty] at h
  | cons t ts ih =>
    intro h c hc
    simp only [listContains, Bool.or_eq_true] at h
    rcases h with h | h
    · exact listStarts_mem pat (t :: ts) h c hc
    · exact List.mem_cons_of_mem _ (ih h c hc)

lemma stripLit_mem (pat : List Char) : ∀ text rest, stripLit pat text = some rest →
    ∀ c ∈ pat, c ∈ text := by
  induction pat with
  | nil => simp
  | cons p ps ih =>
    intro text rest h c hc
    cases text with
    | nil => simp [stripLit] at h
    | cons t ts =>
      unfold stripLit at h
      by_cases hpt : p = t
      · rw [if_pos hpt] at h
        rcases List.mem_cons.mp hc with rfl | hc2
        · exact hpt ▸ List.mem_cons_self _ _
        · exact List.mem_cons_of_mem _ (ih ts rest h c hc2)
      · rw [if_neg hpt] at h
        exact absurd h (by simp)

lemma wbHere_mem (pat text : List Char) (prev : Option Char)
    (h : wbHere pat text prev = true) : ∀ c ∈ pat, c ∈ text := by
  unfold wbHere at h
  cases hs : stripLit pat text with
  | none => rw [hs] at h; simp at h
  | some rest => exact stripLit_mem pat text rest hs

lemma wbSearch_mem (pat : List Char) : ∀ text prev, wbSearch pat prev text = true →
    ∀ c ∈ pat, c ∈ text := by
  intro text
  induction text with
  | nil =>
    intro prev h c hc
    unfold wbSearch at h
    simp only [Bool.or_eq_true] at h
    rcases h with h | h
    · exact wbHere_mem pat [] prev h c hc
    · simp at h
  | cons t ts ih =>
    intro prev h c hc
    unfold wbSearch at h
    simp only [Bool.or_eq_true] at h
    rcases h with h | h
    · exact wbHere_mem pat (t :: ts) prev h c hc
    · exact List.mem_cons_of_mem _ (ih (some t) h c hc)

lemma not_contains (pat text : List Char) (ch : Char) (hch : ch ∈ pat)
    (hni : ch ∉ text) : listContains pat text = false := by
  cases h : listContains pat text with
  | false => rfl
  | true => exact absurd (listContains_mem pat text h ch hch) hni

lemma not_wbSearch (pat text : List Char) (prev : Option Char) (ch : Char)
    (hch : ch ∈ pat) (hni : ch ∉ text) : wbSearch pat prev text = false := by
  cases h : wbSearch pat prev text with
  | false => rfl
  | true => exact absurd (wbSearch_mem pat text prev h ch hch) hni

lemma includes_false (x k : String) (ch : Char) (hch : ch ∈ k.data)
    (hni : ch ∉ x.data) : jsIncludes x k = false :=
  not_contains k.data x.data ch hch hni

lemma letter_not_in (t s : String) (ch : Char) (hnt : ch ∉ t.data)
    (hgt : 57 < ch.toNat) (hD : ∀ c ∈ s.data, isDigitChar c = true) :
    ch ∉ (t ++ s).data := by
  intro hmem
  rw [show (t ++ s).data = t.data ++ s.data from rfl, List.mem_append] at hmem
  rcases hmem with h | h
  · exact hnt h
  · have h2 := hD ch h
    unfold isDigitChar at h2
    simp only [Bool.and_eq_true, decide_eq_true_eq] at h2
    omega

lemma formHit_no_f (x : String) (hf : ('f' : Char) ∉ x.data) :
    formHit x = false := by
  unfold formHit
  rw [not_wbSearch "form".data x.data none 'f' (by decide) hf, Bool.or_false,
    List.any_eq_false]
  intro k hk
  have hin : jsIncludes x k = false := by
    simp only [formKeywords, List.mem_cons, List.not_mem_nil, or_false] at hk
    rcases hk with rfl | rfl | rfl | rfl | rfl | rfl | rfl | rfl <;>
      exact includes_false x _ 'f' (by decide) hf
  simp [hin]

lemma showAllHit_no_c (x : String) (hc : ('c' : Char) ∉ x.data) :
    showAllHit x = false := by
  unfold showAllHit
  rw [includes_false x "show all courses" 'c' (by decide) hc,
    includes_false x "list all courses" 'c' (by decide) hc,
    includes_false x "all courses" 'c' (by decide) hc,
    includes_false x "courses" 'c' (by decide) hc]
  rfl

/-! ### Parsing lemmas for digit strings -/

lemma dropWhile_digits (l : List Char) (hD : ∀ c ∈ l, isDigitChar c = true) :
    l.dropWhile jsIsSpace = l := by
  cases l with
  | nil => rfl
  | cons c cs =>
    rw [List.dropWhile_cons, if_neg ?_]
    have h := hD c (by simp)
    unfold isDigitChar at h
    simp only [Bool.and_eq_true, decide_eq_true_eq] at h
    unfold jsIsSpace
    simp only [Bool.or_eq_true, beq_iff_eq, not_or]
    omega

lemma jsTrim_digits (s : String) (hD : ∀ c ∈ s.data, isDigitChar c = true) :
    jsTrim s = s := by
  unfold jsTrim jsTrimList
  apply congrArg String.mk
  rw [dropWhile_digits s.data hD,
    dropWhile_digits s.data.reverse (fun c hc => hD c (List.mem_reverse.mp hc)),
    List.reverse_reverse]

lemma skipSpaces_digits (l : List Char) (hD : ∀ c ∈ l, isDigitChar c = true) :
    skipSpaces l = l := by
  cases l with
  | nil => rfl
  | cons c cs =>
    unfold skipSpaces
    rw [if_neg ?_]
    have h := hD c (by simp)
    unfold isDigitChar at h
    simp only [Bool.and_eq_true, decide_eq_true_eq] at h
    unfold jsIsSpace
    simp only [Bool.or_eq_true, beq_iff_eq, not_or]
    omega

lemma parseDigitsEnd_digits (l : List Char) (hne : l ≠ [])
    (hD : ∀ c ∈ l, isDigitChar c = true) :
    parseDigitsEnd l = some (digitsToNat l) := by
  unfold parseDigitsEnd
  rw [if_neg (by simp [hne]), if_pos (List.all_eq_true.mpr hD)]

lemma stripLit_digit_none (p : Char) (ps : List Char) (hp : 57 < p.toNat)
    (l : List Char) (hne : l ≠ []) (hD : ∀ c ∈ l, isDigitChar c = true) :
    stripLit (p :: ps) l = none := by
  cases l with
  | nil => simp at hne
  | cons c cs =>
    unfold stripLit
    rw [if_neg ?_]
    have h := hD c (by simp)
    unfold isDigitChar at h
    simp only [Bool.and_eq_true, decide_eq_true_eq] at h
    rintro rfl
    omega

lemma parseCourseNum_digits (s : String) (hne : s.data ≠ [])
    (hD : ∀ c ∈ s.data, isDigitChar c = true) :
    parseCourseNum s.data = some (digitsToNat s.data) := by
  unfold parseCourseNum
  have hstrip : stripLit "course".data s.data = none :=
    stripLit_digit_none 'c' "ourse".data (by decide) s.data hne hD
  rw [hstrip]
  exact parseDigitsEnd_digits s.data hne hD

lemma parseDomainNum_digits (s : String) (hne : s.data ≠ [])
    (hD : ∀ c ∈ s.data, isDigitChar c = true) :
    parseDomainNum s.data = none := by
  unfold parseDomainNum
  have hstrip : stripLit "domain".data s.data = none :=
    stripLit_digit_none 'd' "omain".data (by decide) s.data hne hD
  rw [hstrip]

lemma parseDomainNum_domain_append (s : String) (hne : s.data ≠ [])
    (hD : ∀ c ∈ s.data, isDigitChar c = true) :
    parseDomainNum ("domain " ++ s).data = some (digitsToNat s.data) := by
  have h1 : stripLit "domain".data ("domain " ++ s).data = some (' ' :: s.data) := rfl
  unfold parseDomainNum
  rw [h1]
  dsimp only
  rw [show skipSpaces (' ' :: s.data) = skipSpaces s.data from rfl,
    skipSpaces_digits s.data hD]
  exact parseDigitsEnd_digits s.data hne hD

lemma parseCourseNum_domain_append (s : String) :
    parseCourseNum ("domain " ++ s).data = none := rfl

/-- On `"domain " ++ digits` the domain-selection classifier fires, carrying
the parsed number. -/
lemma ids_domain_append (s : String) (hne : s.data ≠ [])
    (hD : ∀ c ∈ s.data, isDigitChar c = true) :
    isDomainSelection ("domain " ++ s) = ⟨true, some (digitsToNat s.data)⟩ := by
  unfold isDomainSelection
  rw [lower_append_digits "domain " s (by decide) hD]
  dsimp only
  rw [parseCourseNum_domain_append s, parseDomainNum_domain_append s hne hD]
  simp

/-- On an all-digit message whose value is out of the 1-6 range, the
domain-selection classifier does not fire (the single-digit shortcut needs a
value in range, and the `domain n` regex cannot match digits). -/
lemma ids_digits_out (s : String) (hne : s.data ≠ [])
    (hD : ∀ c ∈ s.data, isDigitChar c = true)
    (h7 : digitsToNat s.data < 1 ∨ 6 < digitsToNat s.data) :
    (isDomainSelection s).isDomain = false := by
  unfold isDomainSelection
  rw [lower_digits s hD]
  dsimp only
  rw [parseCourseNum_digits s hne hD, parseDomainNum_digits s hne hD]
  dsimp only
  rcases h7 with h | h
  · rw [decide_eq_false (by omega : ¬ 1 ≤ digitsToNat s.data)]
    simp
  · rw [decide_eq_false (by omega : ¬ digitsToNat s.data ≤ 6)]
    simp

lemma digit_not_mem (s : String) (hD : ∀ c ∈ s.data, isDigitChar c = true)
    (ch : Char) (hgt : 57 < ch.toNat) : ch ∉ s.data := by
  intro h
  have h2 := hD ch h
  unfold isDigitChar at h2
  simp only [Bool.and_eq_true, decide_eq_true_eq] at h2
  omega

/-- `domainDefinitions[n]` is undefined outside 1-6. -/
lemma dd_none (n : Nat) (h : n < 1 ∨ 6 < n) : domainDefinitions n = none := by
  rcases n with _ | _ | _ | _ | _ | _ | _ | m
  · rfl
  · omega
  · omega
  · omega
  · omega
  · omega
  · omega
  · rfl

lemma daysInYear_ge (y : Nat) : 365 ≤ daysInYear y := by
  unfold daysInYear
  split <;> omega

lemma yearWalk_fuel (f1 f2 y d : Nat) (h1 : d < f1) (h2 : d < f2) :
    yearWalk f1 y d = yearWalk f2 y d := by
  induction f1 generalizing f2 y d with
  | zero => omega
  | succ f ih =>
    cases f2 with
    | zero => omega
    | succ g =>
      unfold yearWalk
      split
      · rfl
      · rename_i hlt
        have hy := daysInYear_ge y
        exact ih g (y + 1) (d - daysInYear y) (by omega) (by omega)

/-- Walking `d` days of years from year `y` is walking `d` minus the length
of the first `k` years, from year `y + k`, once `d` covers those years. -/
lemma yearWalk_shift (k : Nat) : ∀ y d f1 f2 : Nat, sumYears y k ≤ d → d < f1 →
    d - sumYears y k < f2 →
    yearWalk f1 y d = yearWalk f2 (y + k) (d - sumYears y k) := by
  induction k with
  | zero =>
    intro y d f1 f2 hs h1 h2
    simpa using yearWalk_fuel f1 f2 y d h1 (by simpa using h2)
  | succ k ih =>
    intro y d f1 f2 hs h1 h2
    have hy := daysInYear_ge y
    have hsum : sumYears y (k + 1) = daysInYear y + sumYears (y + 1) k := rfl
    rw [hsum] at hs h2
    cases f1 with
    | zero => omega
    | succ f =>
      have hstep : yearWalk (f + 1) y d = yearWalk f (y + 1) (d - daysInYear y) := by
        show (if d < daysInYear y then (y, d)
          else yearWalk f (y + 1) (d - daysInYear y)) = _
        rw [if_neg (by omega)]
      rw [hstep]
      have hih := ih (y + 1) (d - daysInYear y) f f2 (by omega) (by omega) (by omega)
      rw [hih]
      have e1 : y + 1 + k = y + (k + 1) := by omega
      have e2 : d - daysInYear y - sumYears (y + 1) k =
          d - sumYears y (k + 1) := by
        rw [hsum]; omega
      rw [e1, e2]

lemma sum_1900_70 : sumYears 1900 70 = 25567 := by decide

/-- The two serial-date conversions agree past the Unix epoch: the
`(serial - 25569) days after 1970-01-01` computation of `formatCourseInfo`
gives the same civil date as the `serial days after 1899-12-30` computation
of `excelDateToString`. -/
lemma excel_civil_shift (n : Nat) (h : 25569 ≤ n) :
    excelCivil n = civilFromDays (n - 25569) := by
  have hw : yearWalk (n - 2 + 1) 1900 (n - 2) =
      yearWalk (n - 25569 + 1) 1970 (n - 25569) := by
    have hs := yearWalk_shift 70 1900 (n - 2) (n - 2 + 1) (n - 25569 + 1)
      (by rw [sum_1900_70]; omega) (by omega) (by rw [sum_1900_70]; omega)
    rw [sum_1900_70] at hs
    have e1 : (1900 : Nat) + 70 = 1970 := by norm_num
    have e2 : n - 2 - 25567 = n - 25569 := by omega
    rw [e1, e2] at hs
    exact hs
  unfold excelCivil civilFromDays
  rw [if_neg (by omega), if_neg (by omega)]
  dsimp only
  rw [hw]

/-- Out-of-range `domain <digits>` messages reach the domain-selection
handler and get the explicit invalid-domain template, leaving the context
untouched. -/
lemma route_domain_append_out (s sender userName : String) (ctx : Option Nat)
    (catalog : List Course) (hne : s.data ≠ [])
    (hD : ∀ c ∈ s.data, isDigitChar c = true)
    (h7 : digitsToNat s.data < 1 ∨ 6 < digitsToNat s.data) :
    route ("domain " ++ s) sender userName ctx catalog = (.invalidDomain, ctx) := by
  have hlow := lower_append_digits "domain " s (by decide) hD
  have htest : testHit (jsToLower ("domain " ++ s)) = false := by
    rw [hlow]
    exact append_digits_ne_lit "domain " s hD "test" 't' (by decide) (by decide)
      (by decide)
  have hgreet : greetingHit (jsToLower ("domain " ++ s)) = false := by
    rw [hlow]
    unfold greetingHit
    rw [append_digits_ne_lit "domain " s hD "hi" 'h' (by decide) (by decide) (by decide),
      append_digits_ne_lit "domain " s hD "hello" 'h' (by decide) (by decide) (by decide),
      append_digits_ne_lit "domain " s hD "hey" 'h' (by decide) (by decide) (by decide),
      append_digits_ne_lit "domain " s hD "hii" 'h' (by decide) (by decide) (by decide),
      append_digits_ne_lit "domain " s hD "helo" 'h' (by decide) (by decide) (by decide)]
    rfl
  have hform : formHit (jsToLower ("domain " ++ s)) = false := by
    rw [hlow]
    exact formHit_no_f _ (letter_not_in "domain " s 'f' (by decide) (by decide) hD)
  have hshow : showAllHit (jsToLower ("domain " ++ s)) = false := by
    rw [hlow]
    exact showAllHit_no_c _ (letter_not_in "domain " s 'c' (by decide) (by decide) hD)
  have hids := ids_domain_append s hne hD
  unfold route
  rw [htest, hgreet, hform, hshow, hids]
  dsimp only
  unfold domainStep
  rw [hids]
  dsimp only [Option.getD_some]
  rw [dd_none (digitsToNat s.data) h7]
  rfl

/-- Out-of-range all-digit messages fall through to the simple-number handler
and get the explicit invalid-number template, leaving the context
untouched. -/
lemma route_digits_out (s sender userName : String) (ctx : Option Nat)
    (catalog : List Course) (hne : s.data ≠ [])
    (hD : ∀ c ∈ s.data, isDigitChar c = true)
    (h7 : digitsToNat s.data < 1 ∨ 6 < digitsToNat s.data) :
    route s sender userName ctx catalog = (.invalidNumber, ctx) := by
  have hlow := lower_digits s hD
  have htest : testHit (jsToLower s) = false := by
    rw [hlow]
    exact digits_ne_lit s hD "test" 't' (by decide) (by decide)
  have hgreet : greetingHit (jsToLower s) = false := by
    rw [hlow]
    unfold greetingHit
    rw [digits_ne_lit s hD "hi" 'h' (by decide) (by decide),
      digits_ne_lit s hD "hello" 'h' (by decide) (by decide),
      digits_ne_lit s hD "hey" 'h' (by decide) (by decide),
      digits_ne_lit s hD "hii" 'h' (by decide) (by decide),
      digits_ne_lit s hD "helo" 'h' (by decide) (by decide)]
    rfl
  have hform : formHit (jsToLower s) = false := by
    rw [hlow]
    exact formHit_no_f _ (digit_not_mem s hD 'f' (by decide))
  have hshow : showAllHit (jsToLower s) = false := by
    rw [hlow]
    exact showAllHit_no_c _ (digit_not_mem s hD 'c' (by decide))
  have hids := ids_digits_out s hne hD h7
  have hnum : numericHit s = true := by
    unfold numericHit
    rw [jsTrim_digits s hD]
    simp [hne, List.all_eq_true.mpr hD]
  unfold route
  rw [htest, hgreet, hform, hshow, hids, hnum]
  unfold numericStep
  rw [jsTrim_digits s hD]
  rw [if_neg (by omega : ¬ (1 ≤ digitsToNat s.data ∧ digitsToNat s.data ≤ 6))]
  rfl

/-! ## Claims -/

/-- C1, counterexample: the claim "for every course `c` in the catalog,
`resolve(c.name, catalog)` returns `c` itself, the exact-match tier winning
over any looser match on a different record" fails: for the query equal to
the catalog course name "Contract Management", the resolver returns the
earlier catalog record "Commercial Contract management" (which matches only
at a looser containment tier), not the exact-matching record itself. -/
theorem c1_counterexample :
    findCourseByPartialName contractManagementCourse.name contractCatalog =
      some commercialContractCourse ∧
    contractManagementCourse ∈ contractCatalog ∧
    commercialContractCourse ≠ contractManagementCourse :=
  ⟨by decide, by decide, by decide⟩

/-- C1, amended: self-resolution by exact name holds only up to catalog
order: for a course whose name is non-empty, not the literal string
"undefined", and unchanged by trimming after lowercasing, the query equal to
its name returns the course itself provided no record placed earlier in the
catalog matches that query at any priority. -/
theorem c1_theorem (pre post : List Course) (c : Course)
    (h1 : c.name ≠ "") (h2 : c.name ≠ "undefined")
    (h3 : jsTrim (jsToLower c.name) = jsToLower c.name)
    (hpre : ∀ x ∈ pre, queryMatches c.name x = false) :
    findCourseByPartialName c.name (pre ++ c :: post) = some c :=
  find_first _ pre post c hpre (self_match c h1 h2 h3)

/-- C1, witness: the amended statement applied to the course "Commercial
Contract management" placed after "GeM Procurement" (which does not match
its name) and before "Contract Management". -/
theorem c1_witness :
    findCourseByPartialName "Commercial Contract management"
      ([gemCourse] ++ commercialContractCourse :: [contractManagementCourse]) =
      some commercialContractCourse :=
  c1_theorem [gemCourse] [contractManagementCourse] commercialContractCourse
    (by decide) (by decide) (by decide) (by decide)

/-- C2, counterexample: the claim "if any candidate matches at a more
precise tier (exact, then prefix), no candidate that matches only at a
looser tier is ever returned, regardless of catalog order" fails: for the
query "Contract Management" the record "Contract Management" matches at the
exact tier, yet the resolver returns the earlier record "Commercial Contract
management", which matches at no exact or prefix tier. -/
theorem c2_counterexample :
    matchesTier12 "Contract Management" contractManagementCourse = true ∧
    contractManagementCourse ∈ contractCatalog ∧
    findCourseByPartialName "Contract Management" contractCatalog =
      some commercialContractCourse ∧
    matchesTier12 "Contract Management" commercialContractCourse = false :=
  ⟨by decide, by decide, by decide, by decide⟩

/-- C2, amended: the matching priorities are evaluated per record inside a
single catalog scan, so catalog order dominates tier order: for every query,
the resolver returns the first record in catalog order that matches at any
priority whatsoever. -/
theorem c2_theorem (q : String) (pre post : List Course) (c : Course)
    (hpre : ∀ x ∈ pre, queryMatches q x = false)
    (hc : queryMatches q c = true) :
    findCourseByPartialName q (pre ++ c :: post) = some c :=
  find_first _ pre post c hpre hc

/-- C2, witness: for the query "Contract Management", the first record
matching at any priority is "Commercial Contract management" (PRIORITY 3/4),
and it is returned although a later record matches exactly. -/
theorem c2_witness :
    findCourseByPartialName "Contract Management" contractCatalog =
      some commercialContractCourse :=
  c2_theorem "Contract Management" [gemCourse] [contractManagementCourse]
    commercialContractCourse (by decide) (by decide)

/-- C3, counterexample: the claim "the goodbye/thanks classifier is evaluated
before every other handler: for every inbound message containing a
goodbye/thanks keyword the reply is the farewell template and never a
course-detail, domain-listing, or show-all reply" fails: the message
"thank you, show all courses" contains the goodbye keyword "thank you", yet
the webhook answers with the show-all-courses reply, because the show-all
handler runs before the goodbye classifier. -/
theorem c3_counterexample :
    goodbyeHit (jsToLower "thank you, show all courses") = true ∧
    route "thank you, show all courses" "919876543210" "Sam" (some 4) [] =
      (.showAll, none) :=
  ⟨by decide, by decide⟩

/-- C3, amended: the goodbye/thanks classifier is evaluated after the
test, greeting, form, show-all, domain-selection and numeric handlers but
before course lookup: every message containing a goodbye keyword on which
those earlier handlers all miss yields the farewell template (in particular
"thank you for info on Safety Management System" does, and is never routed
into a course search). -/
theorem c3_theorem (msg sender userName : String) (ctx : Option Nat)
    (catalog : List Course)
    (hpre : preGoodbyeMiss msg = true)
    (hgb : goodbyeHit (jsToLower msg) = true) :
    route msg sender userName ctx catalog = (.farewell userName, ctx) :=
  route_goodbye msg sender userName ctx catalog hpre hgb

/-- C3, witness: the message cited by the spec gets the farewell reply. -/
theorem c3_witness :
    route "thank you for info on Safety Management System" "919876543210"
      "Sam" none [] = (.farewell "Sam", none) :=
  c3_theorem "thank you for info on Safety Management System" "919876543210"
    "Sam" none [] (by decide) (by decide)

/-- C4 (confirmed): goodbye detection is substring containment over a keyword
list including the two-letter string "ty", so every message whose lowercased
text contains "ty" anywhere and on which the earlier test / greeting / form /
show-all / domain-selection / numeric handlers all miss is answered with the
farewell template, short-circuiting before the course resolver is ever
invoked — including the course-name queries "Safety Management System" and
"Aviation Cyber Security". -/
theorem c4_theorem (msg sender userName : String) (ctx : Option Nat)
    (catalog : List Course)
    (hty : jsIncludes (jsToLower msg) "ty" = true)
    (hpre : preGoodbyeMiss msg = true) :
    route msg sender userName ctx catalog = (.farewell userName, ctx) :=
  route_goodbye msg sender userName ctx catalog hpre
    (goodbyeHit_of_ty (jsToLower msg) hty)

/-- C4, witness: both cited course-name queries get the farewell reply, even
with the matching Safety course present in the catalog. -/
theorem c4_witness :
    route "Safety Management System" "919876543210" "Sam" none smsCatalog =
      (.farewell "Sam", none) ∧
    route "Aviation Cyber Security" "919876543210" "Sam" none smsCatalog =
      (.farewell "Sam", none) :=
  ⟨ c4_theorem "Safety Management System" "919876543210" "Sam" none smsCatalog
      (by decide) (by decide),
   c4_theorem "Aviation Cyber Security" "919876543210" "Sam" none smsCatalog
      (by decide) (by decide)⟩

/-- C5, counterexample: the claim "when all more precise tiers fail, the
resolver falls back to Levenshtein edit distance and in particular
`resolve("saftey managment", catalog)` returns the Safety Management System
course" fails: the resolver has no edit-distance tier, and on a catalog
containing the Safety Management System course the misspelled query returns
no course at all. -/
theorem c5_counterexample :
    smsCourse ∈ smsCatalog ∧
    findCourseByPartialName "saftey managment" smsCatalog = none :=
  ⟨by decide, by decide⟩

/-- C5, amended: the deployed resolver has no edit-distance fallback (the
Levenshtein code exists only in the commented-out Dialogflow variant): the
misspelled query "saftey managment" matches no priority for the Safety
Management System course, the resolver returns null, and the webhook answers
with the common fallback reply rather than a course detail. -/
theorem c5_theorem (sender userName : String) (ctx : Option Nat) :
    findCourseByPartialName "saftey managment" smsCatalog = none ∧
    route "saftey managment" sender userName ctx smsCatalog =
      (.fallback userName, ctx) :=
  ⟨by decide,
   route_fallback "saftey managment" sender userName ctx smsCatalog
     (by decide) (by decide) (by decide) (by decide) (by decide)⟩

/-- C6, counterexample: the claim "for every query whose normalized form is
shorter than 2 characters (and for an empty query), the course resolver
returns null and never returns a course record" fails for the resolver
itself: the one-character query "a" and the empty query both make
`findCourseByPartialName` return the first course whose name contains them
(every name contains the empty string). -/
theorem c6_counterexample :
    findCourseByPartialName "a" smsCatalog = some smsCourse ∧
    findCourseByPartialName "" smsCatalog = some smsCourse :=
  ⟨by decide, by decide⟩

/-- C6, amended: the minimum-length guard lives at the webhook call site, not
inside the resolver: a message whose trimmed length is below 2 (including
the empty message) never produces a course-detail reply, because the course
search handler is never entered; and on an empty catalog the resolver
returns null for every query.  The bare resolver itself can, however, return
a course for a sub-2-character query. -/
theorem c6_theorem (msg sender userName : String) (ctx : Option Nat)
    (catalog : List Course) (hlen : (jsTrim msg).length < 2) :
    (∀ c : Course, (route msg sender userName ctx catalog).1 ≠ .courseDetail c) ∧
    (∀ q : String, findCourseByPartialName q [] = none) :=
  ⟨fun c => route_no_course_short msg sender userName ctx catalog hlen c,
   fun _ => rfl⟩

/-- C6, witness: the one-character message "a" never yields a course-detail
reply through the webhook, although the bare resolver would match it. -/
theorem c6_witness :
    (jsTrim "a").length < 2 ∧
    (route "a" "919876543210" "Sam" none smsCatalog).1 ≠ .courseDetail smsCourse ∧
    findCourseByPartialName "nothing" [] = none :=
  ⟨by decide,
   ( c6_theorem "a" "919876543210" "Sam" none smsCatalog (by decide)).1 smsCourse,
   ( c6_theorem "a" "919876543210" "Sam" none smsCatalog (by decide)).2 "nothing"⟩

/-- C7, counterexample: the claim "there exist two user-context states under
which the same bare numeric message produces different replies (the stored
domain is read when handling bare numbers)" fails: the stored domain context
is never read by any handler, so the reply to the bare numeric message "3"
is the same under every pair of context states. -/
theorem c7_counterexample :
    ¬ ∃ s1 s2 : Option Nat,
      (route "3" "919876543210" "Sam" s1 smsCatalog).1 ≠
        (route "3" "919876543210" "Sam" s2 smsCatalog).1 := by
  rintro ⟨s1, s2, h⟩
  exact h (route_ctx_blind "3" "919876543210" "Sam" s1 s2 smsCatalog)

/-- C7, amended: the per-user domain context of this webhook is write-only:
it is set by the domain-selection and numeric handlers and cleared by
show-all, but no handler reads it, so the reply to every message — numeric
or not — is independent of the stored domain. -/
theorem c7_theorem (msg sender userName : String) (s1 s2 : Option Nat)
    (catalog : List Course) :
    (route msg sender userName s1 catalog).1 =
      (route msg sender userName s2 catalog).1 :=
  route_ctx_blind msg sender userName s1 s2 catalog

/-- C8 (confirmed): for every user-context state, the messages "domain 3" and
"3" (as the entire trimmed message) produce the same domain-3 listing reply
and leave the stored domain in the same state (domain 3); and an out-of-range
domain number, entered either as `domain <digits>` or as a bare all-digit
message, always produces an explicit range-error template (never silence),
leaving the context untouched. -/
theorem c8_theorem (s sender userName : String) (ctx : Option Nat)
    (catalog : List Course) (hne : s.data ≠ [])
    (hD : ∀ c ∈ s.data, isDigitChar c = true)
    (h7 : digitsToNat s.data < 1 ∨ 6 < digitsToNat s.data) :
    route "domain 3" sender userName ctx catalog = (.domainList 3, some 3) ∧
    route "3" sender userName ctx catalog = (.domainList 3, some 3) ∧
    route ("domain " ++ s) sender userName ctx catalog = (.invalidDomain, ctx) ∧
    route s sender userName ctx catalog = (.invalidNumber, ctx) :=
  ⟨rfl, rfl,
   route_domain_append_out s sender userName ctx catalog hne hD h7,
   route_digits_out s sender userName ctx catalog hne hD h7⟩

/-- C8, witness: the out-of-range digit string "9" through both input shapes,
and the in-range pair "domain 3" / "3". -/
theorem c8_witness :
    route "domain 9" "919876543210" "Sam" (some 2) [] = (.invalidDomain, some 2) ∧
    route "9" "919876543210" "Sam" (some 2) [] = (.invalidNumber, some 2) ∧
    route "domain 3" "919876543210" "Sam" (some 2) [] = (.domainList 3, some 3) ∧
    route "3" "919876543210" "Sam" (some 2) [] = (.domainList 3, some 3) := by
  have h := c8_theorem "9" "919876543210" "Sam" (some 2) [] (by decide)
    (by decide) (by decide)
  exact ⟨h.2.2.1, h.2.2.2, h.1, h.2.1⟩

/-- C9, counterexample: the claim "the formatter converts serial day-count
dates to calendar dates rendered DD/MM/YY, and this conversion is applied to
every numeric serial before display" fails twice on the live formatter: the
numeric serial 100 is displayed raw (only serials strictly greater than
25569 are converted), and a converted serial is rendered with a four-digit
year (`toLocaleDateString('en-GB')`, DD/MM/YYYY), unlike the DD/MM/YY shape
produced by the dead `index.js` variant `excelDateToString`. -/
theorem c9_counterexample :
    formatDateField (.num 100) = "100" ∧
    excelDateToString 100 = "09/04/00" ∧
    formatDateField (.num 45000) = "15/03/2023" ∧
    excelDateToString 45000 = "15/03/23" ∧
    ("15/03/2023" : String) ≠ "15/03/23" :=
  ⟨by decide, by decide, by decide, by decide, by decide⟩

/-- C9, amended: the live formatter converts a date field only when it is a
number strictly greater than 25569, and then renders, in DD/MM/YYYY format,
exactly the civil date that lies `serial` days after the fixed epoch
1899-12-30 (the date `excelCivil` computes, and that `excelDateToString`
renders as DD/MM/YY); every other value — numeric serials at or below 25569
included — is displayed as-is. -/
theorem c9_theorem (n : Nat) :
    (n ≤ 25569 → formatDateField (.num n) = Nat.repr n) ∧
    (25569 < n → formatDateField (.num n) = renderEnGB (excelCivil n) ∧
      excelDateToString n = renderDDMMYY (excelCivil n)) := by
  constructor
  · intro h
    unfold formatDateField
    dsimp only
    rw [if_neg (by omega)]
  · intro h
    refine ⟨?_, ?_⟩
    · unfold formatDateField
      dsimp only
      rw [if_pos h, excel_civil_shift n (by omega)]
    · unfold excelDateToString
      rw [if_neg (by omega)]

/-- C9, witness: serial 45000 (15 March 2023) is converted and rendered with
a four-digit year, while serial 100 is displayed raw. -/
theorem c9_witness :
    (25569 < 45000 ∧ formatDateField (.num 45000) = "15/03/2023") ∧
    (100 ≤ 25569 ∧ formatDateField (.num 100) = "100") := by
  constructor
  · refine ⟨by decide, ?_⟩
    rw [((c9_theorem 45000).2 (by decide)).1]
    decide
  · refine ⟨by decide, ?_⟩
    rw [(c9_theorem 100).1 (by decide)]
    decide

/-- C10, counterexample: the claim "whenever the course resolver returns null
for a free-text query or an unexpected error occurs mid-processing, the
reply equals the output of the single fallback function, and no handler
inlines a different copy of the fallback text" fails: the webhook's
top-level critical-error handler replies with an inlined template that
differs from `getCommonFallbackMessage` (already at its first character). -/
theorem c10_counterexample :
    criticalErrorResponse ≠ getCommonFallbackMessage "Champ" :=
  critical_ne_fallback "Champ"

/-- C10, amended: when the resolver returns null for a free-text query (and
no comparison reply applies), the webhook's reply is exactly
`getCommonFallbackMessage(userName)`; the top-level critical-error handler,
however, inlines a distinct template that this function never produces. -/
theorem c10_theorem (msg sender userName : String) (ctx : Option Nat)
    (catalog : List Course)
    (hpre : preGoodbyeMiss msg = true) (hgb : goodbyeHit (jsToLower msg) = false)
    (hlen : 2 ≤ (jsTrim msg).length)
    (hfind : findCourseByPartialName msg catalog = none)
    (hcmp : comparisonHit (jsToLower msg) = false) :
    (route msg sender userName ctx catalog).1 = .fallback userName ∧
    replyText (route msg sender userName ctx catalog).1 =
      getCommonFallbackMessage userName ∧
    criticalErrorResponse ≠ getCommonFallbackMessage userName := by
  have h := route_fallback msg sender userName ctx catalog hpre hgb hlen hfind hcmp
  exact ⟨by rw [h], by rw [h]; rfl, critical_ne_fallback userName⟩

/-- C10, witness: an unresolvable free-text query is answered with the text
of `getCommonFallbackMessage`, which the inlined critical-error template is
not. -/
theorem c10_witness :
    replyText (route "xyzzy course nobody offers" "919876543210" "Sam" none
      smsCatalog).1 = getCommonFallbackMessage "Sam" ∧
    criticalErrorResponse ≠ getCommonFallbackMessage "Sam" := by
  have h := c10_theorem "xyzzy course nobody offers" "919876543210" "Sam" none
    smsCatalog (by decide) (by decide) (by decide) (by decide) (by decide)
  exact ⟨h.2.1, h.2.2⟩

end IAA
